import Mathlib

/-!
Verification of the emotion-reaction pipeline of `lelamp`
(`src/lelamp/service/emotion/emotion_service.py`).

The Python code is shallowly embedded as executable Lean functions:

* Python floats are modelled as rationals (`Rat`); none of the verified
  properties depend on rounding of binary floating point.
* Python exceptions are modelled with `Except PyErr`; a `try ... except`
  block corresponds to matching on the `Except` value.
* the external collaborators (the Gemini classifier, the recording store
  `get_recording_path`, the global animation service `g.animation_service`)
  are parameters of the model, collected in the `Env` structure; claims
  quantify over their behaviour.
* the JSON value that the three-stage extraction of `analyze_emotion`
  produces from the remote response text is modelled by `JVal`; the
  remote call together with that extraction is a single oracle
  `Except PyErr (Option JVal)` (`.error` = the remote call raised,
  `.ok none` = no extraction stage produced a truthy value, `.ok (some v)`
  = some stage produced the value `v`; the code re-checks truthiness of
  `v`, which the model reproduces).
-/

namespace Lelamp

attribute [local semireducible] Rat.add Rat.sub Rat.mul Rat.inv

/-- Python exception classes that the modelled code can raise. -/
inductive PyErr where
  | attributeError
  | typeError
  | valueError
  | err (msg : String)
deriving DecidableEq

/-- The `Emotion` enum of `emotion_service.py` (lines 28-37). -/
inductive Emotion where
  | happy
  | excited
  | sad
  | curious
  | thoughtful
  | angry
  | surprised
  | neutral
deriving DecidableEq

/-- A JSON value, as produced by `json.loads` in `analyze_emotion`. -/
inductive JVal where
  | jnull
  | jbool (b : Bool)
  | jnum (q : Rat)
  | jstr (s : String)
  | jarr (elems : List JVal)
  | jobj (fields : List (String × JVal))

/-- Python truthiness (`if not result`) for JSON values. -/
def pyTruthy : JVal → Bool
  | .jnull => false
  | .jbool b => b
  | .jnum q => decide (q ≠ 0)
  | .jstr s => !s.data.isEmpty
  | .jarr l => !l.isEmpty
  | .jobj l => !l.isEmpty

/-- Whether `x[:100]` succeeds on the value (only strings and lists are
sliceable among JSON values); used for the log line of `analyze_emotion`
(line 242), which slices the `reasoning` field when it is truthy. -/
def pySliceable : JVal → Bool
  | .jstr _ => true
  | .jarr _ => true
  | _ => false

/-- Lookup of a key in a parsed JSON object.  `json.loads` keeps the last
occurrence of a duplicated key, hence the `getLast?`. -/
def lookupLast (fields : List (String × JVal)) (k : String) : Option JVal :=
  ((fields.filter (fun p => p.1 == k)).map (fun p => p.2)).getLast?

/-- Python `result.get(k, dflt)`: total on dicts, raises `AttributeError`
on every other value (line 209-211 operate on whatever `json.loads`
returned, which need not be a dict). -/
def pyGet (v : JVal) (k : String) (dflt : JVal) : Except PyErr JVal :=
  match v with
  | .jobj fields => .ok ((lookupLast fields k).getD dflt)
  | _ => .error .attributeError

/-- Python `str.strip` (whitespace only; the model restricts to the ASCII
whitespace recognised by `Char.isWhitespace`). -/
def pyStrip (s : String) : String :=
  ⟨((s.data.dropWhile Char.isWhitespace).reverse.dropWhile Char.isWhitespace).reverse⟩

/-- Python `str.lower` (ASCII case folding; the emotion labels involved
are all ASCII). -/
def pyLowerString (s : String) : String :=
  ⟨s.data.map Char.toLower⟩

/-- Python `x.lower()`: only strings have the method, everything else
raises `AttributeError`. -/
def pyLower : JVal → Except PyErr String
  | .jstr s => .ok (pyLowerString s)
  | _ => .error .attributeError

/-- Splits a leading run of decimal digits from a character list. -/
def takeDigits : List Char → List Char × List Char
  | [] => ([], [])
  | c :: rest =>
    if c.isDigit then
      let p := takeDigits rest
      (c :: p.1, p.2)
    else ([], c :: rest)

/-- Value of a digit run. -/
def digitsToNat (l : List Char) : Nat :=
  l.foldl (fun a c => a * 10 + (c.toNat - 48)) 0

/-- Exponent part of a Python float literal (after the `e`). -/
def parseExp (mant : Rat) (r : List Char) : Option Rat :=
  let p :=
    match r with
    | '+' :: t => (true, t)
    | '-' :: t => (false, t)
    | _ => (true, r)
  let d := takeDigits p.2
  if d.1.isEmpty || !d.2.isEmpty then none
  else if p.1 then some (mant * (10 : Rat) ^ digitsToNat d.1)
  else some (mant / (10 : Rat) ^ digitsToNat d.1)

/-- Python `float(s)` on a string: strip, optional sign, decimal mantissa,
optional exponent.  (The non-finite literals `inf`/`nan` have no rational
value and are outside the model; no verified property depends on them.) -/
def pyFloatOfString (s : String) : Option Rat :=
  let cs := (pyStrip s).data
  let p :=
    match cs with
    | '+' :: r => ((1 : Rat), r)
    | '-' :: r => ((-1 : Rat), r)
    | _ => ((1 : Rat), cs)
  let ip := takeDigits p.2
  let fp :=
    match ip.2 with
    | '.' :: r => let d := takeDigits r; (some d.1, d.2)
    | _ => (none, ip.2)
  if ip.1.isEmpty && (fp.1.getD []).isEmpty then none
  else
    let frac := fp.1.getD []
    let mant : Rat :=
      p.1 * ((digitsToNat ip.1 : Rat) + (digitsToNat frac : Rat) / (10 : Rat) ^ frac.length)
    match fp.2 with
    | [] => some mant
    | 'e' :: r => parseExp mant r
    | 'E' :: r => parseExp mant r
    | _ => none

/-- Python `float(x)` on a JSON value (line 210): numbers pass through,
booleans coerce to 0/1, numeric strings parse, everything else raises. -/
def pyFloat : JVal → Except PyErr Rat
  | .jnum q => .ok q
  | .jbool b => .ok (if b then 1 else 0)
  | .jstr s =>
    match pyFloatOfString s with
    | some q => .ok q
    | none => .error .valueError
  | _ => .error .typeError

/-- The `emotion_map` synonym dict of `analyze_emotion` (lines 214-234),
as an association list in source order. -/
def emotion_map_table : List (String × Emotion) :=
  [("happy", Emotion.happy),
   ("excited", Emotion.excited),
   ("joy", Emotion.excited),
   ("sad", Emotion.sad),
   ("disappointed", Emotion.sad),
   ("upset", Emotion.sad),
   ("curious", Emotion.curious),
   ("interested", Emotion.curious),
   ("wondering", Emotion.curious),
   ("thoughtful", Emotion.thoughtful),
   ("thinking", Emotion.thoughtful),
   ("contemplating", Emotion.thoughtful),
   ("angry", Emotion.angry),
   ("frustrated", Emotion.angry),
   ("annoyed", Emotion.angry),
   ("surprised", Emotion.surprised),
   ("shocked", Emotion.surprised),
   ("neutral", Emotion.neutral),
   ("calm", Emotion.neutral)]

/-- `emotion_map.get(emotion_str, Emotion.NEUTRAL)` (line 236). -/
def emotion_map (s : String) : Emotion :=
  match emotion_map_table.find? (fun p => p.1 == s) with
  | some p => p.2
  | none => Emotion.neutral

/-- The result dict built by `analyze_emotion` (lines 247-253).  The
derived fields `emotion_str` (= `emotion.value`) and `raw_response` carry
no extra information and are omitted. -/
structure ClassificationResult where
  emotion : Emotion
  confidence : Rat
  reasoning : JVal

/-- Validation and logging stage of `analyze_emotion` (lines 208-253),
still inside the `try`: extract/normalise `emotion`, coerce `confidence`
with `float`, fetch `reasoning`, then build the log message — whose
`reasoning[:100] if reasoning else ...` slice raises `TypeError` when
`reasoning` is truthy but not sliceable — and return the result. -/
def validateResult (v : JVal) : Except PyErr ClassificationResult :=
  match pyGet v ("emotion") (.jstr ("")) with
  | .error e => .error e
  | .ok eraw =>
    match pyLower eraw with
    | .error e => .error e
    | .ok emotion_str =>
      match pyGet v ("confidence") (.jnum 0) with
      | .error e => .error e
      | .ok craw =>
        match pyFloat craw with
        | .error e => .error e
        | .ok confidence =>
          match pyGet v ("reasoning") (.jstr ("")) with
          | .error e => .error e
          | .ok reasoning =>
            if pyTruthy reasoning && !pySliceable reasoning then .error .typeError
            else .ok ⟨emotion_map emotion_str, confidence, reasoning⟩

/-- `EmotionService.analyze_emotion` (lines 135-257).  `call` is the
oracle for the remote request plus three-stage JSON extraction (see the
module docstring); every exception raised inside the `try` is caught and
turned into `none` (lines 255-257), and the empty-text guard (line 146)
runs before the `try`. -/
def analyze_emotion (text : String) (call : Except PyErr (Option JVal)) :
    Option ClassificationResult :=
  if text.data.isEmpty || (pyStrip text).data.isEmpty then none
  else
    match call with
    | .error _ => none
    | .ok none => none
    | .ok (some v) =>
      if pyTruthy v = false then none
      else
        match validateResult v with
        | .error _ => none
        | .ok r => some r

/-- The `_emotion_to_recording` dict of `__init__` (lines 122-131). -/
def emotion_to_recording : Emotion → List String
  | .happy => ["happy_wiggle", "excited"]
  | .excited => ["excited", "luxo_excited", "happy_wiggle"]
  | .sad => ["sad", "luxo_sad", "head_down"]
  | .curious => ["curious", "luxo_curious"]
  | .thoughtful => ["thinking", "thoughtful"]
  | .angry => ["luxo_sad", "head_down", "sad"]
  | .surprised => ["luxo_excited", "excited"]
  | .neutral => ["idle"]

/-- Behaviour of the external `get_recording_path`: for each name either
a path (`some`), absence (`none`), or a raised exception (`.error`). -/
def Store : Type := String → Except PyErr (Option String)

/-- The `for recording_name in recordings` loop of
`map_emotion_to_recording` (lines 275-277): return the first name the
store confirms; a store exception propagates (the loop body is not inside
a `try`). -/
def firstExisting (store : Store) : List String → Except PyErr (Option String)
  | [] => .ok none
  | n :: rest =>
    match store n with
    | .error e => .error e
    | .ok (some _) => .ok (some n)
    | .ok none => firstExisting store rest

/-- `EmotionService.map_emotion_to_recording` (lines 259-280). -/
def map_emotion_to_recording (store : Store) (emotion : Emotion) :
    Except PyErr (Option String) :=
  if (emotion_to_recording emotion).isEmpty then .ok none
  else
    match firstExisting store (emotion_to_recording emotion) with
    | .error e => .error e
    | .ok (some n) => .ok (some n)
    | .ok none => .ok (emotion_to_recording emotion).head?

/-- Whether the store confirms the existence of a recording (used only to
state the specification of `map_emotion_to_recording`). -/
def storeConfirms (store : Store) (n : String) : Bool :=
  match store n with
  | .ok (some _) => true
  | _ => false

/-- The configuration consumed by `EmotionService.__init__`. -/
structure Config where
  auto_react : Bool
  min_confidence : Rat
  cooldown_seconds : Rat

/-- Behaviour of the external collaborators during one call of
`trigger_reaction`. -/
structure Env where
  /-- Outcome of the remote classification plus JSON extraction. -/
  classifierCall : Except PyErr (Option JVal)
  /-- The recording store `get_recording_path`. -/
  get_recording_path : Store
  /-- Whether the global `g.animation_service` is set (line 342). -/
  animation_service : Bool
  /-- Outcome of `g.animation_service.dispatch("play", name)` (line 353). -/
  dispatch : String → Except PyErr Unit

/-- Observable outcome of one `trigger_reaction` call: the returned value
(or propagated exception), the `_last_reaction_time` field after the
call, whether `analyze_emotion` (and with it the remote classifier) was
reached, and the dispatches issued. -/
structure TRResult where
  result : Except PyErr Bool
  last_reaction_time : Rat
  classifierInvoked : Bool
  dispatchCalls : List (String × String)

/-- `EmotionService.trigger_reaction` (lines 282-368).  `last` is the
`_last_reaction_time` field before the call and `current_time` the value
`time.time()` returns at the cooldown check (line 297) — the only clock
sample of the whole function; the success path stores this same value at
line 363. -/
def trigger_reaction (cfg : Config) (last : Rat) (text : String)
    (current_time : Rat) (env : Env) : TRResult :=
  if cfg.auto_react = false then ⟨.ok false, last, false, []⟩
  else if current_time - last < cfg.cooldown_seconds then ⟨.ok false, last, false, []⟩
  else
    match analyze_emotion text env.classifierCall with
    | none => ⟨.ok false, last, true, []⟩
    | some r =>
      if r.confidence < cfg.min_confidence then ⟨.ok false, last, true, []⟩
      else if r.emotion = Emotion.neutral then ⟨.ok false, last, true, []⟩
      else
        match map_emotion_to_recording env.get_recording_path r.emotion with
        | .error e => ⟨.error e, last, true, []⟩
        | .ok none => ⟨.ok false, last, true, []⟩
        | .ok (some name) =>
          if name.data.isEmpty then ⟨.ok false, last, true, []⟩
          else if env.animation_service = false then ⟨.ok false, last, true, []⟩
          else
            match env.get_recording_path name with
            | .error e => ⟨.error e, last, true, []⟩
            | .ok none => ⟨.ok false, last, true, []⟩
            | .ok (some _) =>
              match env.dispatch name with
              | .ok _ => ⟨.ok true, current_time, true, [("play", name)]⟩
              | .error _ => ⟨.ok false, last, true, [("play", name)]⟩

/-- One step of a sequence of `trigger_reaction` calls: the input text,
the clock sample of that call, and the collaborator behaviour seen by it. -/
structure Step where
  text : String
  current_time : Rat
  env : Env

/-- The `_last_reaction_time` value after running one step from `last`. -/
def stepLast (cfg : Config) (last : Rat) (s : Step) : Rat :=
  (trigger_reaction cfg last s.text s.current_time s.env).last_reaction_time

/-- The successive values of `_last_reaction_time` along a sequence of
calls (including the initial one). -/
def lastTrace (cfg : Config) (last0 : Rat) (steps : List Step) : List Rat :=
  steps.scanl (stepLast cfg) last0

/-- Concrete configuration: defaults of `init_emotion_service`
(`auto_react` on, `min_confidence` 0.7, `cooldown_seconds` 2). -/
def cfgEx : Config := ⟨true, 7 / 10, 2⟩

/-- A well-formed classifier response: happy with confidence 0.9. -/
def goodJson : JVal :=
  .jobj [("emotion", .jstr ("happy")), ("confidence", .jnum (9 / 10)),
         ("reasoning", .jstr ("ok"))]

/-- A classifier response reporting neutral with confidence 0.99. -/
def neutralJson : JVal :=
  .jobj [("emotion", .jstr ("neutral")), ("confidence", .jnum (99 / 100)),
         ("reasoning", .jstr ("ok"))]

/-- A store in which exactly the recording named happy_wiggle exists. -/
def storeEx : Store :=
  fun s => .ok (if s = "happy_wiggle" then some "recordings/happy_wiggle" else none)

/-- Environment in which every gate passes and dispatch succeeds. -/
def envEx : Env :=
  ⟨.ok (some goodJson), storeEx, true, fun _ => .ok ()⟩

/-- Like `envEx`, but every dispatch raises. -/
def envDF : Env :=
  ⟨.ok (some goodJson), storeEx, true, fun _ => .error .typeError⟩

/-- Like `envEx`, but every store lookup raises. -/
def envStoreFail : Env :=
  ⟨.ok (some goodJson), fun _ => .error (.err ("io error")), true, fun _ => .ok ()⟩

/-- Like `envEx`, but the classifier reports neutral at confidence 0.99. -/
def envNeutral : Env :=
  ⟨.ok (some neutralJson), storeEx, true, fun _ => .ok ()⟩

/-- Like `envEx`, but the parsed JSON has no emotion field. -/
def envMissingEmotion : Env :=
  ⟨.ok (some (.jobj [("confidence", .jnum (9 / 10))])), storeEx, true, fun _ => .ok ()⟩

/-- Like `envEx`, but the global animation service is not set. -/
def envNoSvc : Env :=
  ⟨.ok (some goodJson), storeEx, false, fun _ => .ok ()⟩

/-- A single fully-qualifying step at time 10. -/
def stepEx : Step := ⟨"hello", 10, envEx⟩

/-- A parsed JSON object carrying only an emotion field. -/
def fieldsHappyOnly : List (String × JVal) := [("emotion", .jstr ("happy"))]

/-- The classification that `envNeutral` produces. -/
def rNeutral : ClassificationResult := ⟨Emotion.neutral, 99 / 100, .jstr ("ok")⟩

theorem bool_ne_false {b : Bool} (h : ¬ b = false) : b = true := by
  cases b
  · exact absurd rfl h
  · rfl

theorem pyGet_obj (fields : List (String × JVal)) (k : String) (d : JVal) :
    pyGet (.jobj fields) k d = .ok ((lookupLast fields k).getD d) := rfl

theorem lookupLast_nil (k : String) : lookupLast [] k = none := rfl

theorem firstExisting_eq (store : Store) (h : ∀ s, ∃ o, store s = .ok o) :
    ∀ l : List String, firstExisting store l = .ok (l.find? (storeConfirms store)) := by
  intro l
  induction l with
  | nil => rfl
  | cons n rest ih =>
    obtain ⟨o, ho⟩ := h n
    unfold firstExisting
    rw [ho]
    cases o with
    | some p =>
      have hc : storeConfirms store n = true := by simp [storeConfirms, ho]
      rw [List.find?_cons_of_pos _ hc]
    | none =>
      have hc : storeConfirms store n = false := by simp [storeConfirms, ho]
      rw [List.find?_cons_of_neg _ (by simp [hc]), ← ih]

theorem firstExisting_error (store : Store) :
    ∀ (l : List String) (e : PyErr), firstExisting store l = .error e →
      ∃ s, store s = .error e := by
  intro l
  induction l with
  | nil => intro e h; exact absurd h (by simp [firstExisting])
  | cons n rest ih =>
    intro e h
    unfold firstExisting at h
    cases hn : store n with
    | error e2 =>
      rw [hn] at h
      injection h with h2
      exact ⟨n, h2 ▸ hn⟩
    | ok o =>
      rw [hn] at h
      cases o with
      | some p => exact Except.noConfusion h
      | none => exact ih e h

theorem map_eq_of_total (store : Store) (h : ∀ s, ∃ o, store s = .ok o)
    (e : Emotion) :
    map_emotion_to_recording store e =
      .ok (match (emotion_to_recording e).find? (storeConfirms store) with
           | some n => some n
           | none => (emotion_to_recording e).head?) := by
  unfold map_emotion_to_recording
  rw [firstExisting_eq store h]
  cases hrecs : emotion_to_recording e with
  | nil => simp [List.find?]
  | cons a l =>
    simp only [List.isEmpty_cons, Bool.false_eq_true, if_false]
    cases hf : (a :: l).find? (storeConfirms store) <;> simp

theorem map_error (store : Store) (e : PyErr) (emo : Emotion)
    (h : map_emotion_to_recording store emo = .error e) :
    ∃ s, store s = .error e := by
  unfold map_emotion_to_recording at h
  split at h
  · exact Except.noConfusion h
  · split at h
    · rename_i e2 heq
      injection h with h2
      exact firstExisting_error store _ e (h2 ▸ heq)
    · exact Except.noConfusion h
    · exact Except.noConfusion h

theorem trigger_master (cfg : Config) (last : Rat) (text : String)
    (t : Rat) (env : Env) :
    ((trigger_reaction cfg last text t env).result = .ok false ∧
     (trigger_reaction cfg last text t env).last_reaction_time = last ∧
     (trigger_reaction cfg last text t env).dispatchCalls = []) ∨
    (∃ s e, env.get_recording_path s = .error e ∧
     (trigger_reaction cfg last text t env).result = .error e ∧
     (trigger_reaction cfg last text t env).last_reaction_time = last ∧
     (trigger_reaction cfg last text t env).dispatchCalls = []) ∨
    (∃ n e, env.dispatch n = .error e ∧ env.animation_service = true ∧
     (trigger_reaction cfg last text t env).result = .ok false ∧
     (trigger_reaction cfg last text t env).last_reaction_time = last ∧
     (trigger_reaction cfg last text t env).dispatchCalls = [("play", n)]) ∨
    ((trigger_reaction cfg last text t env).result = .ok true ∧
     (trigger_reaction cfg last text t env).last_reaction_time = t ∧
     ¬ (t - last < cfg.cooldown_seconds) ∧ env.animation_service = true ∧
     ∃ n, (trigger_reaction cfg last text t env).dispatchCalls = [("play", n)] ∧
       env.dispatch n = .ok ()) := by
  unfold trigger_reaction
  split
  · exact Or.inl ⟨rfl, rfl, rfl⟩
  split
  · exact Or.inl ⟨rfl, rfl, rfl⟩
  rename_i hcd
  split
  · exact Or.inl ⟨rfl, rfl, rfl⟩
  split
  · exact Or.inl ⟨rfl, rfl, rfl⟩
  split
  · exact Or.inl ⟨rfl, rfl, rfl⟩
  split
  · rename_i e heq
    obtain ⟨s, hs⟩ := map_error env.get_recording_path e _ heq
    exact Or.inr (Or.inl ⟨s, e, hs, rfl, rfl, rfl⟩)
  · exact Or.inl ⟨rfl, rfl, rfl⟩
  · rename_i name heq
    split
    · exact Or.inl ⟨rfl, rfl, rfl⟩
    split
    · exact Or.inl ⟨rfl, rfl, rfl⟩
    rename_i hsvc
    have hsvcT : env.animation_service = true := bool_ne_false hsvc
    split
    · rename_i e2 heq2
      exact Or.inr (Or.inl ⟨name, e2, heq2, rfl, rfl, rfl⟩)
    · exact Or.inl ⟨rfl, rfl, rfl⟩
    · rename_i p heq2
      split
      · rename_i u heq3
        exact Or.inr (Or.inr (Or.inr ⟨rfl, rfl, hcd, hsvcT, name, rfl, heq3⟩))
      · rename_i e3 heq3
        exact Or.inr (Or.inr (Or.inl ⟨name, e3, heq3, hsvcT, rfl, rfl, rfl⟩))

theorem validate_missing_emotion (fields : List (String × JVal))
    (h : lookupLast fields ("emotion") = none) :
    ∀ r, validateResult (.jobj fields) = .ok r → r.emotion = Emotion.neutral := by
  intro r hr
  unfold validateResult at hr
  simp only [pyGet_obj, h, Option.getD_none,
    show pyLower (JVal.jstr ("")) = Except.ok ("") from rfl] at hr
  split at hr
  · exact Except.noConfusion hr
  · split at hr
    · exact Except.noConfusion hr
    · injection hr with h2
      subst h2
      rfl

theorem validate_null_confidence (fields : List (String × JVal))
    (h : lookupLast fields ("confidence") = some JVal.jnull) :
    ∃ e, validateResult (.jobj fields) = .error e := by
  unfold validateResult
  simp only [pyGet_obj, h, Option.getD_some]
  cases hE : pyLower ((lookupLast fields ("emotion")).getD (.jstr (""))) with
  | error e => exact ⟨e, rfl⟩
  | ok s => exact ⟨PyErr.typeError, rfl⟩

theorem analyze_result (text : String) (call : Except PyErr (Option JVal))
    (r : ClassificationResult) (h : analyze_emotion text call = some r) :
    ∃ v, call = .ok (some v) ∧ validateResult v = .ok r := by
  unfold analyze_emotion at h
  split at h
  · exact Option.noConfusion h
  · cases call with
    | error e => exact Option.noConfusion h
    | ok vo =>
      cases vo with
      | none => exact Option.noConfusion h
      | some v =>
        refine ⟨v, rfl, ?_⟩
        dsimp only at h
        split at h
        · exact Option.noConfusion h
        · split at h
          · exact Option.noConfusion h
          · rename_i r2 hval
            injection h with h2
            exact h2 ▸ hval

theorem trigger_no_react (cfg : Config) (last : Rat) (text : String)
    (t : Rat) (env : Env)
    (h : ∀ r, analyze_emotion text env.classifierCall = some r →
      r.emotion = Emotion.neutral) :
    (trigger_reaction cfg last text t env).result = .ok false ∧
    (trigger_reaction cfg last text t env).dispatchCalls = [] := by
  unfold trigger_reaction
  repeat' split
  all_goals try exact ⟨rfl, rfl⟩
  all_goals exact absurd (h _ (by assumption)) (by assumption)

/-- C1: every call of `trigger_reaction` made while `now - last_reaction_time`
is less than `cooldown_seconds` returns false, does not invoke the emotion
classifier, and dispatches nothing. -/
theorem C1_cooldown_short_circuit (cfg : Config) (last : Rat) (text : String)
    (t : Rat) (env : Env) (h : t - last < cfg.cooldown_seconds) :
    (trigger_reaction cfg last text t env).result = .ok false ∧
    (trigger_reaction cfg last text t env).classifierInvoked = false ∧
    (trigger_reaction cfg last text t env).dispatchCalls = [] := by
  unfold trigger_reaction
  split
  · exact ⟨rfl, rfl, rfl⟩
  · exact ⟨rfl, rfl, rfl⟩

/-- Witness for C1 at a concrete input: one second after a reaction, with a
two-second cooldown, the call is rejected without classification or
dispatch. -/
theorem C1_witness :
    (10 : Rat) - 9 < cfgEx.cooldown_seconds ∧
    ((trigger_reaction cfgEx 9 "hello" 10 envEx).result = .ok false ∧
     (trigger_reaction cfgEx 9 "hello" 10 envEx).classifierInvoked = false ∧
     (trigger_reaction cfgEx 9 "hello" 10 envEx).dispatchCalls = []) := by
  have h : (10 : Rat) - 9 < cfgEx.cooldown_seconds := by norm_num [cfgEx]
  exact ⟨h, C1_cooldown_short_circuit cfgEx 9 "hello" 10 envEx h⟩

/-- C2: when the dispatch call raises, `trigger_reaction` returns false and
`_last_reaction_time` is unchanged (the cooldown state is not updated on
dispatch failure). -/
theorem C2_dispatch_failure_atomic (cfg : Config) (last : Rat) (text : String)
    (t : Rat) (env : Env)
    (hd : ∀ n, ∃ e, env.dispatch n = .error e) :
    (trigger_reaction cfg last text t env).last_reaction_time = last ∧
    ((trigger_reaction cfg last text t env).dispatchCalls ≠ [] →
      (trigger_reaction cfg last text t env).result = .ok false) := by
  rcases trigger_master cfg last text t env with
    ⟨h1, h2, h3⟩ | ⟨s, e, hs, h1, h2, h3⟩ | ⟨n, e, hn, hsvc, h1, h2, h3⟩ |
    ⟨h1, h2, hcd, hsvc, n, hcalls, hdn⟩
  · exact ⟨h2, fun hc => absurd h3 hc⟩
  · exact ⟨h2, fun hc => absurd h3 hc⟩
  · exact ⟨h2, fun hc => h1⟩
  · obtain ⟨e, he⟩ := hd n
    rw [he] at hdn
    exact Except.noConfusion hdn

/-- Witness for C2 at a concrete input: with a dispatcher that always
raises, the dispatch is attempted, the call returns false and the
timestamp stays at its previous value 0. -/
theorem C2_witness :
    (trigger_reaction cfgEx 0 "hello" 10 envDF).dispatchCalls = [("play", "happy_wiggle")] ∧
    (trigger_reaction cfgEx 0 "hello" 10 envDF).result = .ok false ∧
    (trigger_reaction cfgEx 0 "hello" 10 envDF).last_reaction_time = 0 := by
  have hd : ∀ n, ∃ e, envDF.dispatch n = .error e := fun n => ⟨.typeError, rfl⟩
  have h2 := C2_dispatch_failure_atomic cfgEx 0 "hello" 10 envDF hd
  have hcalls : (trigger_reaction cfgEx 0 "hello" 10 envDF).dispatchCalls =
      [("play", "happy_wiggle")] := rfl
  exact ⟨hcalls, h2.2 (by rw [hcalls]; simp), h2.1⟩

/-- C3 counterexample: in a successful run whose cooldown check sampled the
clock at 10, the stored timestamp is 10, which differs from every later
instant — in particular from the wall-clock time at which the dispatch
completes, since classification and dispatch happen after the sample and
take positive time.  So `last_reaction_time` is NOT set to the
dispatch-completion time; it is set to the earlier cooldown-check sample. -/
theorem C3_counterexample :
    (trigger_reaction cfgEx 0 "hello" 10 envEx).result = .ok true ∧
    (trigger_reaction cfgEx 0 "hello" 10 envEx).last_reaction_time = 10 ∧
    (∀ tdone : Rat, 10 < tdone →
      (trigger_reaction cfgEx 0 "hello" 10 envEx).last_reaction_time ≠ tdone) := by
  refine ⟨rfl, rfl, fun tdone ht heq => ?_⟩
  rw [show (trigger_reaction cfgEx 0 "hello" 10 envEx).last_reaction_time = 10 from rfl] at heq
  rw [heq] at ht
  exact lt_irrefl tdone ht

/-- C3 amended: when `trigger_reaction` returns true, `_last_reaction_time`
is set to the single `time.time()` sample of the call, taken at the
cooldown check before classification and dispatch (not to the
dispatch-completion time). -/
theorem C3_amended (cfg : Config) (last : Rat) (text : String) (t : Rat)
    (env : Env) (h : (trigger_reaction cfg last text t env).result = .ok true) :
    (trigger_reaction cfg last text t env).last_reaction_time = t := by
  rcases trigger_master cfg last text t env with
    ⟨h1, h2, h3⟩ | ⟨s, e, hs, h1, h2, h3⟩ | ⟨n, e, hn, hsvc, h1, h2, h3⟩ |
    ⟨h1, h2, hcd, hsvc, n, hcalls, hdn⟩
  · rw [h1] at h; exact absurd (Except.ok.inj h) (by simp)
  · rw [h1] at h; exact Except.noConfusion h
  · rw [h1] at h; exact absurd (Except.ok.inj h) (by simp)
  · exact h2

/-- Witness for C3's amended statement at a concrete successful run. -/
theorem C3_witness :
    (trigger_reaction cfgEx 0 "hi" 20 envEx).result = .ok true ∧
    (trigger_reaction cfgEx 0 "hi" 20 envEx).last_reaction_time = 20 :=
  ⟨rfl, C3_amended cfgEx 0 "hi" 20 envEx rfl⟩

/-- C4 counterexample: with a recording store whose lookup raises, a call
in which every earlier gate passes propagates the store's exception to the
caller instead of returning a boolean (the `get_recording_path` calls at
lines 276 and 347 are outside every `try` block). -/
theorem C4_counterexample :
    (trigger_reaction cfgEx 0 "hello" 10 envStoreFail).result =
      .error (.err ("io error")) := rfl

/-- C4 amended: as long as the recording store itself does not raise,
`trigger_reaction` absorbs every classifier and dispatcher failure and
returns a boolean; an exception raised by the recording store, however,
propagates to the caller. -/
theorem C4_amended (cfg : Config) (last : Rat) (text : String) (t : Rat)
    (env : Env) (h : ∀ s, ∃ o, env.get_recording_path s = .ok o) :
    ∃ b, (trigger_reaction cfg last text t env).result = .ok b := by
  rcases trigger_master cfg last text t env with
    ⟨h1, h2, h3⟩ | ⟨s, e, hs, h1, h2, h3⟩ | ⟨n, e, hn, hsvc, h1, h2, h3⟩ |
    ⟨h1, h2, hcd, hsvc, n, hcalls, hdn⟩
  · exact ⟨false, h1⟩
  · obtain ⟨o, ho⟩ := h s
    rw [ho] at hs
    exact Except.noConfusion hs
  · exact ⟨false, h1⟩
  · exact ⟨true, h1⟩

/-- Witness for C4's amended statement: with a total store the call
returns a boolean whatever the dispatcher and classifier do. -/
theorem C4_witness :
    (∀ s, ∃ o, envEx.get_recording_path s = .ok o) ∧
    ∃ b, (trigger_reaction cfgEx 0 "hello" 10 envEx).result = .ok b := by
  have h : ∀ s, ∃ o, envEx.get_recording_path s = .ok o := fun s => ⟨_, rfl⟩
  exact ⟨h, C4_amended cfgEx 0 "hello" 10 envEx h⟩

/-- C5: whenever classification yields the neutral emotion — whatever the
reported confidence — `trigger_reaction` returns false and dispatches
nothing. -/
theorem C5_neutral_never_dispatches (cfg : Config) (last : Rat)
    (text : String) (t : Rat) (env : Env) (r : ClassificationResult)
    (h : analyze_emotion text env.classifierCall = some r)
    (hn : r.emotion = Emotion.neutral) :
    (trigger_reaction cfg last text t env).result = .ok false ∧
    (trigger_reaction cfg last text t env).dispatchCalls = [] := by
  refine trigger_no_react cfg last text t env (fun r2 hr2 => ?_)
  rw [h] at hr2
  injection hr2 with h2
  rw [← h2]
  exact hn

/-- Witness for C5 at a concrete input: neutral with confidence 0.99
(above the 0.7 threshold) is rejected without dispatch. -/
theorem C5_witness :
    analyze_emotion "hello" envNeutral.classifierCall = some rNeutral ∧
    rNeutral.emotion = Emotion.neutral ∧
    rNeutral.confidence = 99 / 100 ∧
    ((trigger_reaction cfgEx 0 "hello" 10 envNeutral).result = .ok false ∧
     (trigger_reaction cfgEx 0 "hello" 10 envNeutral).dispatchCalls = []) := by
  have h1 : analyze_emotion "hello" envNeutral.classifierCall = some rNeutral := rfl
  exact ⟨h1, rfl, rfl,
    C5_neutral_never_dispatches cfgEx 0 "hello" 10 envNeutral rNeutral h1 rfl⟩

/-- C6: the emotion string is normalised through the synonym table (joy
maps to excited, disappointed to sad, calm to neutral); a string outside
the table — and the empty string standing for a missing field — maps to
neutral; and a parsed JSON object without an emotion field makes
`trigger_reaction` return false without dispatching. -/
theorem C6_synonym_normalization :
    (emotion_map "joy" = Emotion.excited ∧
     emotion_map "disappointed" = Emotion.sad ∧
     emotion_map "calm" = Emotion.neutral) ∧
    (∀ s, s ∉ emotion_map_table.map Prod.fst → emotion_map s = Emotion.neutral) ∧
    (∀ (cfg : Config) (last : Rat) (text : String) (t : Rat) (env : Env)
       (fields : List (String × JVal)),
      env.classifierCall = .ok (some (.jobj fields)) →
      lookupLast fields ("emotion") = none →
      (trigger_reaction cfg last text t env).result = .ok false ∧
      (trigger_reaction cfg last text t env).dispatchCalls = []) := by
  refine ⟨⟨rfl, rfl, rfl⟩, ?_, ?_⟩
  · intro s hs
    unfold emotion_map
    have hnone : emotion_map_table.find? (fun p => p.1 == s) = none := by
      rw [List.find?_eq_none]
      intro p hp hbeq
      exact hs (List.mem_map.mpr ⟨p, hp, by rwa [beq_iff_eq] at hbeq⟩)
    rw [hnone]
  · intro cfg last text t env fields hcall hlook
    refine trigger_no_react cfg last text t env (fun r hr => ?_)
    obtain ⟨v, hv, hval⟩ := analyze_result text env.classifierCall r hr
    rw [hcall] at hv
    injection hv with hv2
    injection hv2 with hv3
    exact validate_missing_emotion fields hlook r (hv3 ▸ hval)

/-- Witness for C6 at a concrete input: a classifier response whose JSON
carries only a confidence of 0.9 (no emotion field) is normalised to
neutral and rejected without dispatch. -/
theorem C6_witness :
    envMissingEmotion.classifierCall =
      .ok (some (.jobj [("confidence", .jnum (9 / 10))])) ∧
    lookupLast [("confidence", JVal.jnum (9 / 10))] ("emotion") = none ∧
    ((trigger_reaction cfgEx 0 "hello" 10 envMissingEmotion).result = .ok false ∧
     (trigger_reaction cfgEx 0 "hello" 10 envMissingEmotion).dispatchCalls = []) := by
  refine ⟨rfl, rfl, ?_⟩
  exact C6_synonym_normalization.2.2 cfgEx 0 "hello" 10 envMissingEmotion
    [("confidence", JVal.jnum (9 / 10))] rfl rfl

/-- C7 counterexample: a parsed response with a well-formed emotion but a
malformed confidence (`null`, which `float()` cannot coerce) does not
produce a result with confidence 0.0 — the coercion raises inside the
`try` and `analyze_emotion` returns no result at all. -/
theorem C7_counterexample :
    analyze_emotion "hello"
      (.ok (some (.jobj [("emotion", .jstr ("happy")), ("confidence", .jnull)])))
      = none := rfl

/-- C7 amended: a missing confidence field is defaulted to 0.0 in the
returned result, but a malformed (non-coercible) confidence value makes
the `float()` coercion raise, so `analyze_emotion` fails and returns no
result instead of a result with confidence 0.0. -/
theorem C7_amended :
    (∀ (fields : List (String × JVal)) (r : ClassificationResult),
      lookupLast fields ("confidence") = none →
      validateResult (.jobj fields) = .ok r → r.confidence = 0) ∧
    (∀ (text : String) (fields : List (String × JVal)),
      lookupLast fields ("confidence") = some JVal.jnull →
      analyze_emotion text (.ok (some (.jobj fields))) = none) := by
  constructor
  · intro fields r h hv
    unfold validateResult at hv
    simp only [pyGet_obj, h, Option.getD_none,
      show pyFloat (JVal.jnum 0) = Except.ok 0 from rfl] at hv
    split at hv
    · exact Except.noConfusion hv
    · split at hv
      · exact Except.noConfusion hv
      · injection hv with h2
        subst h2
        rfl
  · intro text fields h
    unfold analyze_emotion
    split
    · rfl
    · cases fields with
      | nil => exact absurd h (by rw [lookupLast_nil]; exact Option.noConfusion)
      | cons p l =>
        obtain ⟨e, he⟩ := validate_null_confidence (p :: l) h
        simp [pyTruthy, he]

/-- Witness for C7's amended statement at a concrete input: a response
with only an emotion field validates to confidence 0.0. -/
theorem C7_witness :
    lookupLast fieldsHappyOnly ("confidence") = none ∧
    validateResult (.jobj fieldsHappyOnly) =
      .ok ⟨Emotion.happy, 0, .jstr ("")⟩ ∧
    (⟨Emotion.happy, (0 : Rat), .jstr ("")⟩ : ClassificationResult).confidence = 0 := by
  refine ⟨rfl, rfl, ?_⟩
  exact C7_amended.1 fieldsHappyOnly ⟨Emotion.happy, 0, .jstr ("")⟩ rfl rfl

/-- C8: with a store that answers every lookup, `map_emotion_to_recording`
returns the first candidate of the emotion's list that the store
confirms, and the head of the list if it confirms none. -/
theorem C8_first_existing_mapping (store : Store)
    (h : ∀ s, ∃ o, store s = .ok o) (e : Emotion) :
    map_emotion_to_recording store e =
      .ok (match (emotion_to_recording e).find? (storeConfirms store) with
           | some n => some n
           | none => (emotion_to_recording e).head?) :=
  map_eq_of_total store h e

/-- Witness for C8 at the claim's concrete scenario: candidates
[excited, luxo_excited, happy_wiggle] with only happy_wiggle present in
the store resolve to happy_wiggle. -/
theorem C8_witness :
    (∀ s, ∃ o, storeEx s = .ok o) ∧
    emotion_to_recording Emotion.excited = ["excited", "luxo_excited", "happy_wiggle"] ∧
    map_emotion_to_recording storeEx Emotion.excited = .ok (some "happy_wiggle") := by
  have h : ∀ s, ∃ o, storeEx s = .ok o := fun s => ⟨_, rfl⟩
  refine ⟨h, rfl, ?_⟩
  rw [C8_first_existing_mapping storeEx h Emotion.excited]
  rfl

theorem scanl_head_cons (f : Rat → Step → Rat) (b : Rat) (l : List Step) :
    ∃ tl, List.scanl f b l = b :: tl := by
  cases l <;> exact ⟨_, rfl⟩

theorem chain_scanl_le (f : Rat → Step → Rat) (hm : ∀ b a, b ≤ f b a) :
    ∀ (l : List Step) (b : Rat), List.Chain' (fun x y => x ≤ y) (List.scanl f b l) := by
  intro l
  induction l with
  | nil => intro b; exact List.chain'_singleton b
  | cons a l ih =>
    intro b
    rw [show List.scanl f b (a :: l) = b :: List.scanl f (f b a) l from rfl]
    obtain ⟨tl, htl⟩ := scanl_head_cons f (f b a) l
    rw [htl]
    exact List.chain'_cons.mpr ⟨hm b a, htl ▸ ih (f b a)⟩

theorem stepLast_mono (cfg : Config) (h : 0 ≤ cfg.cooldown_seconds)
    (last : Rat) (s : Step) : last ≤ stepLast cfg last s := by
  unfold stepLast
  rcases trigger_master cfg last s.text s.current_time s.env with
    ⟨h1, h2, h3⟩ | ⟨s2, e, hs, h1, h2, h3⟩ | ⟨n, e, hn, hsvc, h1, h2, h3⟩ |
    ⟨h1, h2, hcd, hsvc, n, hcalls, hdn⟩
  · rw [h2]
  · rw [h2]
  · rw [h2]
  · rw [h2]
    have := not_lt.mp hcd
    linarith

/-- C9: along every sequence of `trigger_reaction` calls (with the
configured non-negative cooldown) the successive values of
`_last_reaction_time` form a non-decreasing chain, and a single call
changes the field only when it returns true, i.e. only after a successful
dispatch — every call not returning true leaves it unchanged. -/
theorem C9_monotonic_last_reaction (cfg : Config) (last0 : Rat)
    (steps : List Step) (h : 0 ≤ cfg.cooldown_seconds) :
    List.Chain' (fun x y => x ≤ y) (lastTrace cfg last0 steps) ∧
    (∀ (last : Rat) (text : String) (t : Rat) (env : Env),
      (trigger_reaction cfg last text t env).result ≠ .ok true →
      (trigger_reaction cfg last text t env).last_reaction_time = last) := by
  constructor
  · exact chain_scanl_le (stepLast cfg) (fun b a => stepLast_mono cfg h b a) steps last0
  · intro last text t env hne
    rcases trigger_master cfg last text t env with
      ⟨h1, h2, h3⟩ | ⟨s, e, hs, h1, h2, h3⟩ | ⟨n, e, hn, hsvc, h1, h2, h3⟩ |
      ⟨h1, h2, hcd, hsvc, n, hcalls, hdn⟩
    · exact h2
    · exact h2
    · exact h2
    · exact absurd h1 hne

/-- Witness for C9 at a concrete two-step sequence: the trace of
`_last_reaction_time` values is a non-decreasing chain. -/
theorem C9_witness :
    (0 : Rat) ≤ cfgEx.cooldown_seconds ∧
    List.Chain' (fun x y => x ≤ y)
      (lastTrace cfgEx 0 [stepEx, ⟨"there", 11, envEx⟩]) := by
  have h : (0 : Rat) ≤ cfgEx.cooldown_seconds := by norm_num [cfgEx]
  exact ⟨h, (C9_monotonic_last_reaction cfgEx 0 [stepEx, ⟨"there", 11, envEx⟩] h).1⟩

/-- C10: when the global animation service is not set, `trigger_reaction`
returns false and never dispatches, even if every other gate (cooldown,
classification, confidence, non-neutral emotion, mapping, recording
existence) would pass; the store hypothesis only rules out the
store-exception path, which returns before the service check. -/
theorem C10_animation_service_gate (cfg : Config) (last : Rat)
    (text : String) (t : Rat) (env : Env)
    (hsvc : env.animation_service = false)
    (h : ∀ s, ∃ o, env.get_recording_path s = .ok o) :
    (trigger_reaction cfg last text t env).result = .ok false ∧
    (trigger_reaction cfg last text t env).dispatchCalls = [] := by
  rcases trigger_master cfg last text t env with
    ⟨h1, h2, h3⟩ | ⟨s, e, hs, h1, h2, h3⟩ | ⟨n, e, hn, hsvcT, h1, h2, h3⟩ |
    ⟨h1, h2, hcd, hsvcT, n, hcalls, hdn⟩
  · exact ⟨h1, h3⟩
  · obtain ⟨o, ho⟩ := h s
    rw [ho] at hs
    exact Except.noConfusion hs
  · rw [hsvc] at hsvcT
    exact Bool.noConfusion hsvcT
  · rw [hsvc] at hsvcT
    exact Bool.noConfusion hsvcT

/-- Witness for C10 at a concrete input where every spec-listed gate
passes but the animation service is unset: the call returns false and
nothing is dispatched. -/
theorem C10_witness :
    envNoSvc.animation_service = false ∧
    (∀ s, ∃ o, envNoSvc.get_recording_path s = .ok o) ∧
    ((trigger_reaction cfgEx 0 "hello" 10 envNoSvc).result = .ok false ∧
     (trigger_reaction cfgEx 0 "hello" 10 envNoSvc).dispatchCalls = []) := by
  have hs : ∀ s, ∃ o, envNoSvc.get_recording_path s = .ok o := fun s => ⟨_, rfl⟩
  exact ⟨rfl, hs, C10_animation_service_gate cfgEx 0 "hello" 10 envNoSvc rfl hs⟩

end Lelamp
